import Mathlib

/-!
# Verification of the traffic simulation core

Shallow embedding of the `traffic_sim` package (constants.py, map.py,
traffic_light.py, car.py, simulation.py) and proofs about it.

Conventions used throughout:
* Python `int` is modelled by `Int` (grid coordinates can go negative when a
  car drives off the map) and non-negative counters by `Nat`.
* The map's random building decoration is modelled by an arbitrary predicate
  `bld : Int → Int → Bool`; road and intersection queries are independent of it.
* The probabilistic turn selection in `Car._update_direction_at_intersection`
  draws among a candidate list computed deterministically from the state; the
  draw itself is modelled by an arbitrary selector function over that list.
-/

namespace TrafficSim

/-! ## constants.py -/

def GRID_SIZE : Nat := 20

def EMPTY : Nat := 0
def ROAD : Nat := 1
def INTERSECTION : Nat := 2
def BUILDING : Nat := 3
def GRASS : Nat := 4

/-- A direction is a `(dx, dy)` pair, as in constants.py. -/
abbrev Dir := Int × Int

def NORTH : Dir := (0, -1)
def SOUTH : Dir := (0, 1)
def EAST : Dir := (1, 0)
def WEST : Dir := (-1, 0)

def RED : Nat := 0
def GREEN : Nat := 1

def FPS : Nat := 10
def SPAWN_RATE : Nat := 20
def MAX_CARS : Nat := 20

/-- The names bound at top level of constants.py (comments aside, every
assignment in the file). -/
def constantsNames : List String :=
  ["GRID_SIZE", "CELL_SIZE", "SCREEN_WIDTH", "SCREEN_HEIGHT",
   "EMPTY", "ROAD", "INTERSECTION", "BUILDING", "GRASS",
   "NORTH", "SOUTH", "EAST", "WEST", "DIRECTIONS",
   "RED", "GREEN", "YELLOW",
   "FPS", "SPAWN_RATE", "MAX_CARS"]

/-- Python `from module import name` succeeds iff `name` is bound in the
module. -/
def importFrom (moduleNames : List String) (n : String) : Bool :=
  moduleNames.contains n

/-- The names car.py line 3 imports from constants.py. -/
def carImportList : List String :=
  ["NORTH", "SOUTH", "EAST", "WEST", "RESTART_DELAY"]

/-- Loading the Car module succeeds iff every imported name resolves. -/
def carModuleLoads : Bool :=
  carImportList.all (importFrom constantsNames)

/-! ## map.py

`Map._generate_map` writes random buildings first, then overwrites the road
rows/columns with `ROAD`, then the two 2x2 blocks with `INTERSECTION`.  The
final cell kind is therefore: intersection if in a block, else road if on a
lane, else building or grass depending on the random draw `bld`. -/

def inBounds (x y : Int) : Bool :=
  0 ≤ x && x < (GRID_SIZE : Int) && 0 ≤ y && y < (GRID_SIZE : Int)

def interCell (x y : Int) : Bool :=
  (x == 5 || x == 6 || x == 10 || x == 11) && (y == 10 || y == 11)

def roadCell (x y : Int) : Bool :=
  (y == 10 || y == 11) || (x == 10 || x == 11 || x == 5 || x == 6)

/-- `Map.get_cell`: bounds-checked cell kind (`None` off the grid). -/
def getCell (bld : Int → Int → Bool) (x y : Int) : Option Nat :=
  if inBounds x y then
    some (if interCell x y then INTERSECTION
          else if roadCell x y then ROAD
          else if bld x y then BUILDING else GRASS)
  else
    none

/-- `Map.is_road`: the cell is `ROAD` or `INTERSECTION`. -/
def isRoad (bld : Int → Int → Bool) (x y : Int) : Bool :=
  match getCell bld x y with
  | some c => c == ROAD || c == INTERSECTION
  | none => false

/-- `Map.is_intersection`. -/
def isIntersection (bld : Int → Int → Bool) (x y : Int) : Bool :=
  getCell bld x y == some INTERSECTION

theorem isIntersection_eq (bld : Int → Int → Bool) (x y : Int) :
    isIntersection bld x y = (inBounds x y && interCell x y) := by
  unfold isIntersection getCell
  by_cases hb : inBounds x y <;> simp [hb]
  by_cases hi : interCell x y <;> simp [hi, INTERSECTION, ROAD, BUILDING, GRASS]
  by_cases hr : roadCell x y <;> simp [hr, INTERSECTION, ROAD, BUILDING, GRASS]
  by_cases hd : bld x y <;> simp [hd, INTERSECTION, BUILDING, GRASS]

theorem isRoad_eq (bld : Int → Int → Bool) (x y : Int) :
    isRoad bld x y = (inBounds x y && (interCell x y || roadCell x y)) := by
  unfold isRoad getCell
  by_cases hb : inBounds x y <;> simp [hb]
  by_cases hi : interCell x y <;> simp [hi, INTERSECTION, ROAD, BUILDING, GRASS]
  by_cases hr : roadCell x y <;> simp [hr, INTERSECTION, ROAD, BUILDING, GRASS]
  by_cases hd : bld x y <;> simp [hd, INTERSECTION, ROAD, BUILDING, GRASS]

/-- `Map.get_allowed_directions`: lane headings, checked in source order
(horizontal rows first, then the vertical lanes, else empty). -/
def getAllowedDirections (x y : Int) : List Dir :=
  if y == 11 then [EAST]
  else if y == 10 then [WEST]
  else if x == 10 || x == 5 then [SOUTH]
  else if x == 11 || x == 6 then [NORTH]
  else []

/-- `Map.spawn_points`: `(x, y, direction)` triples, in source order
(width = height = 20, so `width-1 = height-1 = 19`). -/
def spawnPoints : List (Int × Int × Dir) :=
  [(0, 11, EAST), (19, 10, WEST), (10, 0, SOUTH),
   (11, 19, NORTH), (5, 0, SOUTH), (6, 19, NORTH)]

/-- The intersection cells appended by `Map._generate_map`, in append order. -/
def mapIntersectionCells : List (Int × Int) :=
  [(5, 10), (6, 10), (5, 11), (6, 11), (10, 10), (11, 10), (10, 11), (11, 11)]

/-! ## traffic_light.py -/

structure TrafficLight where
  x : Int
  y : Int
  axis : String
  state : Nat
  timer : Nat
  cycle_time : Nat
deriving DecidableEq, Repr

namespace TrafficLight

/-- `TrafficLight.toggle`. -/
def toggle (l : TrafficLight) : TrafficLight :=
  if l.state = RED then { l with state := GREEN } else { l with state := RED }

/-- `TrafficLight.update`: increment the timer; on reaching the cycle length,
toggle and reset.  The class has no manual-override flag, so this runs
unconditionally. -/
def update (l : TrafficLight) : TrafficLight :=
  let l := { l with timer := l.timer + 1 }
  if l.cycle_time ≤ l.timer then { l.toggle with timer := 0 } else l

/-- `TrafficLight.is_red`. -/
def isRed (l : TrafficLight) : Bool := l.state == RED

/-- `TrafficLight.is_green`. -/
def isGreen (l : TrafficLight) : Bool := l.state == GREEN

/-- `n` successive `update()` calls. -/
def updateN : Nat → TrafficLight → TrafficLight
  | 0, l => l
  | n + 1, l => updateN n l.update

/-- The attribute names a `TrafficLight` instance exposes: the five instance
attributes set in `__init__` plus the four methods of the class body. -/
def attrNames : List String :=
  ["x", "y", "axis", "state", "timer", "cycle_time",
   "toggle", "update", "is_green", "is_red"]

end TrafficLight

/-! ## Simulation light construction (simulation.py) -/

/-- `Simulation._add_intersection_lights(x_min, x_max, y_min, y_max)`: the
quadruple south-entry, north-entry, east-entry, west-entry. -/
def addIntersectionLights (xmin xmax ymin ymax : Int) : List TrafficLight :=
  [⟨xmin - 1, ymin - 1, "VERTICAL", GREEN, 0, 30⟩,
   ⟨xmax + 1, ymax + 1, "VERTICAL", GREEN, 0, 30⟩,
   ⟨xmin - 1, ymax + 1, "HORIZONTAL", RED, 0, 30⟩,
   ⟨xmax + 1, ymin - 1, "HORIZONTAL", RED, 0, 30⟩]

/-- The hard-coded bounds table built by `Simulation._init_traffic_lights`:
id 0 ↦ x=[5,6], y=[10,11]; id 1 ↦ x=[20,21], y=[10,11]. -/
def intersectionBoundsTable : List (Nat × (Int × Int × Int × Int)) :=
  [(0, (5, 6, 10, 11)), (1, (20, 21, 10, 11))]

/-- Bounds lookup (`None` for an unknown id, as `intersection_id not in
self.intersections`). -/
def boundsOf (id : Nat) : Option (Int × Int × Int × Int) :=
  (intersectionBoundsTable.lookup id)

/-- The full light list built at `Simulation` construction, in append order. -/
def initLights : List TrafficLight :=
  addIntersectionLights 5 6 10 11 ++ addIntersectionLights 20 21 10 11

/-- Positions of the constructed lights. -/
def initLightPositions : List (Int × Int) :=
  initLights.map (fun l => (l.x, l.y))

/-! ## car.py -/

structure Car where
  id : Nat
  x : Int
  y : Int
  direction : Dir
  waiting : Bool
  entry_direction : Option Dir
  ticks_in_intersection : Nat
  total_wait_time : Nat
  current_wait_time : Nat
  restart_delay_counter : Nat
  was_waiting : Bool
deriving DecidableEq, Repr

/-- `Car(x, y, direction)`: a freshly spawned car (the uuid is abstracted to a
caller-supplied numeric id). -/
def mkCar (id : Nat) (x y : Int) (d : Dir) : Car :=
  ⟨id, x, y, d, false, none, 0, 0, 0, 0, false⟩

namespace Car

/-- `Car._is_conflicting_direction`: perpendicular headings conflict, equal or
opposite ones do not. -/
def isConflictingDirection (d other : Dir) : Bool :=
  if d = other then false
  else if d.1 = -other.1 ∧ d.2 = -other.2 then false
  else true

/-- The cell checked for an approach light, "to the right" of the heading
(`-1, -1` for a heading that is none of the four cardinal directions, as in
the source's initialisation of `check_x, check_y`). -/
def checkPos (d : Dir) (x y : Int) : Int × Int :=
  if d = SOUTH then (x - 1, y)
  else if d = NORTH then (x + 1, y)
  else if d = EAST then (x, y + 1)
  else if d = WEST then (x, y - 1)
  else (-1, -1)

/-- The linear scan over `traffic_lights` for a light at the given cell. -/
def findLightAt (lights : List TrafficLight) (p : Int × Int) :
    Option TrafficLight :=
  lights.find? (fun tl => tl.x == p.1 && tl.y == p.2)

/-- Whether some other car occupies cell `(tx, ty)`. -/
def occupiedBy (cars : List Car) (selfId : Nat) (tx ty : Int) : Bool :=
  cars.any (fun o => o.id != selfId && o.x == tx && o.y == ty)

/-- The entry/exit tracking at the top of
`Car._update_direction_at_intersection`: record the entry heading on the
first tick inside an intersection, clear it outside. -/
def entryUpdate (c : Car) (bld : Int → Int → Bool) : Car :=
  if isIntersection bld c.x c.y then
    (if c.entry_direction = none then { c with entry_direction := some c.direction } else c)
  else { c with entry_direction := none }

/-- The candidate directions `_update_direction_at_intersection` ends up
drawing from (`valid_dirs` in the source), for a car whose entry heading has
already been updated: the allowed lane headings, filtered (keeping the list
nonempty) against a U-turn on the entry heading, then against an immediate
U-turn, then against occupied target cells. -/
def candidateDirs (c : Car) (others : List Car) : List Dir :=
  let allowed := getAllowedDirections c.x c.y
  let allowed : List Dir :=
    match c.entry_direction with
    | some e =>
        let filtered := allowed.filter (fun d => !(d.1 == -e.1 && d.2 == -e.2))
        if filtered.isEmpty then allowed else filtered
    | none => allowed
  let allowed :=
    if 1 < allowed.length then
      let filtered :=
        allowed.filter (fun d => !(d.1 == -c.direction.1 && d.2 == -c.direction.2))
      if filtered.isEmpty then allowed else filtered
    else allowed
  if 1 < allowed.length then
    let nonBlocked :=
      allowed.filter (fun d => !(occupiedBy others c.id (c.x + d.1) (c.y + d.2)))
    if nonBlocked.isEmpty then allowed else nonBlocked
  else allowed

/-- `Car._update_direction_at_intersection`.  The candidate filtering is
transcribed from the source; the final probabilistic draw among several
remaining candidates is modelled by the selector `choose` (the source draws
among exactly the remaining candidate directions). -/
def updateDirectionAtIntersection (c : Car) (bld : Int → Int → Bool)
    (others : List Car) (choose : List Dir → Dir) : Car :=
  let c := entryUpdate c bld
  if (getAllowedDirections c.x c.y).isEmpty then c
  else
    match candidateDirs c others with
    | [] => c
    | [d] => { c with direction := d }
    | ds => { c with direction := choose ds }

/-- The deadlock-escape scan (source step 4): the first allowed direction that
differs from the current heading and whose target cell is unoccupied and
road-valid. -/
def findEscape (c : Car) (bld : Int → Int → Bool) (others : List Car)
    (dirs : List Dir) : Option Dir :=
  dirs.find? (fun d =>
    d != c.direction &&
    !(occupiedBy others c.id (c.x + d.1) (c.y + d.2)) &&
    isRoad bld (c.x + d.1) (c.y + d.2))

/-- Steps 4 and 5 of `Car.move` (the part after every refusal gate has
passed): the deadlock escape scan, then accordion arming or the actual
advance with the turn selection.  `currently_in_intersection` is recomputed
from the (unchanged) position. -/
def moveFinal (c : Car) (bld : Int → Int → Bool) (others : List Car)
    (rd : Nat) (choose : List Dir → Dir) : Car × Bool :=
  let escape : Option Dir :=
    if isIntersection bld c.x c.y && 5 < c.ticks_in_intersection then
      findEscape c bld others (getAllowedDirections c.x c.y)
    else none
  match escape with
  | some d =>
      ({ c with direction := d, x := c.x + d.1, y := c.y + d.2,
                waiting := false, ticks_in_intersection := 0 }, true)
  | none =>
      if c.was_waiting then
        ({ c with restart_delay_counter := rd, was_waiting := false,
                  waiting := true }, false)
      else
        (updateDirectionAtIntersection
          { c with x := c.x + c.direction.1, y := c.y + c.direction.2,
                   waiting := false }
          bld others choose, true)

/-- Step 3 of `Car.move`: refusal when some other car occupies the
destination cell, unless this car has been inside an intersection for more
than 3 ticks and the occupant is outside every intersection. -/
def moveCollision (c : Car) (bld : Int → Int → Bool) (others : List Car)
    (rd : Nat) (choose : List Dir → Dir) : Car × Bool :=
  if others.any (fun o =>
      o.id != c.id && o.x == c.x + c.direction.1 && o.y == c.y + c.direction.2 &&
      !(isIntersection bld c.x c.y && 3 < c.ticks_in_intersection &&
        !(isIntersection bld o.x o.y))) then
    ({ c with waiting := true, was_waiting := true }, false)
  else moveFinal c bld others rd choose

/-- Steps 2 and 2b of `Car.move`: the red-light gate at the cell to the right
of the heading, then the perpendicular-conflict gate on entering an
intersection. -/
def moveSignal (c : Car) (bld : Int → Int → Bool) (lights : List TrafficLight)
    (others : List Car) (rd : Nat) (choose : List Dir → Dir) : Car × Bool :=
  let nextIsInter := isIntersection bld (c.x + c.direction.1) (c.y + c.direction.2)
  let redLight :=
    nextIsInter &&
      (match findLightAt lights (checkPos c.direction c.x c.y) with
       | some l => l.isRed
       | none => false)
  if redLight then
    ({ c with waiting := true, was_waiting := true }, false)
  else if nextIsInter && !(isIntersection bld c.x c.y) &&
      others.any (fun o =>
        o.id != c.id && isIntersection bld o.x o.y &&
        isConflictingDirection c.direction o.direction) then
    ({ c with waiting := true }, false)
  else moveCollision c bld others rd choose

/-- Step 1 of `Car.move`: off-map moves are always permitted (the simulation
removes the car), and an on-map destination must be road. -/
def moveBoundary (c : Car) (bld : Int → Int → Bool) (lights : List TrafficLight)
    (others : List Car) (rd : Nat) (choose : List Dir → Dir) : Car × Bool :=
  if !(inBounds (c.x + c.direction.1) (c.y + c.direction.2)) then
    ({ c with x := c.x + c.direction.1, y := c.y + c.direction.2 }, true)
  else if !(isRoad bld (c.x + c.direction.1) (c.y + c.direction.2)) then
    (c, false)
  else moveSignal c bld lights others rd choose

/-- `Car.move(game_map, traffic_lights, other_cars)`.  Returns the updated car
and the boolean result.  `rd` is the restart-delay constant: car.py imports
`RESTART_DELAY` from constants.py where no such name is defined, so the value
is left as a parameter (the spec only calls it "a fixed delay N").  The gate
chain is written as one named stage per early-`return` block of the source. -/
def move (c : Car) (bld : Int → Int → Bool) (lights : List TrafficLight)
    (others : List Car) (rd : Nat) (choose : List Dir → Dir) : Car × Bool :=
  if 0 < c.restart_delay_counter then
    ({ c with restart_delay_counter := c.restart_delay_counter - 1,
              waiting := true }, false)
  else
    let c :=
      if isIntersection bld c.x c.y then
        { c with ticks_in_intersection := c.ticks_in_intersection + 1 }
      else { c with ticks_in_intersection := 0 }
    moveBoundary c bld lights others rd choose

/-- `Car.increment_wait_time`. -/
def incrementWaitTime (c : Car) : Car :=
  if c.waiting then
    { c with total_wait_time := c.total_wait_time + 1,
             current_wait_time := c.current_wait_time + 1 }
  else
    { c with current_wait_time := 0 }

end Car

/-- One car's processing inside `Simulation.step`'s movement loop: `move`
followed by `increment_wait_time`. -/
def carTick (c : Car) (bld : Int → Int → Bool) (lights : List TrafficLight)
    (others : List Car) (rd : Nat) (choose : List Dir → Dir) : Car × Bool :=
  let r := c.move bld lights others rd choose
  (r.1.incrementWaitTime, r.2)

/-! ## simulation.py -/

structure SimState where
  cars : List Car
  traffic_lights : List TrafficLight
  tick_count : Nat
  total_wait_time_all_cars : Nat
  total_cars_spawned : Nat
  spawn_rate : Nat
deriving DecidableEq

/-- A freshly constructed `Simulation()` (the rolling statistics histories,
which are floating-point averages feeding back into nothing modelled here,
are omitted). -/
def initSimState : SimState :=
  ⟨[], initLights, 0, 0, 0, SPAWN_RATE⟩

/-- `Simulation.spawn_car`: refuse at the population cap, pick a random spawn
point (modelled by the index `pick`, reduced mod the list length), refuse if
it is occupied, else append a new car.  `freshId` stands for the random uuid. -/
def spawnCar (s : SimState) (pick : Nat) (freshId : Nat) : SimState :=
  if MAX_CARS ≤ s.cars.length then s
  else
    match spawnPoints.get? (pick % spawnPoints.length) with
    | none => s
    | some (x, y, d) =>
        if s.cars.any (fun c => c.x == x && c.y == y) then s
        else { s with cars := s.cars ++ [mkCar freshId x y d],
                      total_cars_spawned := s.total_cars_spawned + 1 }

/-- The movement loop of `Simulation.step`: cars are processed in container
order, each seeing the already-updated states of the cars processed before it
this same tick (`done`), itself in its pre-move state, and the not-yet-moved
rest — exactly the aliased list `self.cars` that the source passes. -/
def movePhase (bld : Int → Int → Bool) (lights : List TrafficLight) (rd : Nat)
    (choose : Nat → List Dir → Dir) (done : List Car) :
    List Car → List Car
  | [] => done
  | c :: rest =>
      let c2 := (carTick c bld lights (done ++ c :: rest) rd (choose done.length)).1
      movePhase bld lights rd choose (done ++ [c2]) rest

/-- A car is still on the map after moving. -/
def carInBounds (c : Car) : Bool :=
  0 ≤ c.x && c.x < (GRID_SIZE : Int) && 0 ≤ c.y && c.y < (GRID_SIZE : Int)

/-- The pre-movement part of `Simulation.step`: tick increment, light updates,
conditional spawn. -/
def preMovePhase (s : SimState) (pick freshId : Nat) : SimState :=
  let s := { s with tick_count := s.tick_count + 1 }
  let s := { s with traffic_lights := s.traffic_lights.map TrafficLight.update }
  if s.tick_count % s.spawn_rate == 0 then spawnCar s pick freshId else s

/-- `Simulation.step` (statistics histories omitted, see `initSimState`):
lights, spawn, car moves in container order, then removal of off-map cars
with their cumulative wait time folded into the running total. -/
def stepSim (bld : Int → Int → Bool) (rd : Nat) (pick freshId : Nat)
    (choose : Nat → List Dir → Dir) (s : SimState) : SimState :=
  let s := preMovePhase s pick freshId
  let moved := movePhase bld s.traffic_lights rd choose [] s.cars
  let removed := moved.filter (fun c => !(carInBounds c))
  let kept := moved.filter carInBounds
  { s with cars := kept,
           total_wait_time_all_cars :=
             s.total_wait_time_all_cars + (removed.map Car.total_wait_time).sum }

/-- `Simulation.get_total_wait_time`: running removed-car total plus the sum
over currently-live cars. -/
def getTotalWaitTime (s : SimState) : Nat :=
  s.total_wait_time_all_cars + (s.cars.map Car.total_wait_time).sum

/-- A run of the simulation from construction: tick `n` uses spawn draw
`picks n`, uuid `fids n` and turn selectors `chooses n`. -/
def runSim (bld : Int → Int → Bool) (rd : Nat) (picks fids : Nat → Nat)
    (chooses : Nat → Nat → List Dir → Dir) : Nat → SimState
  | 0 => initSimState
  | n + 1 => stepSim bld rd (picks n) (fids n) (chooses n)
      (runSim bld rd picks fids chooses n)

/-! ### get_intersection_queues -/

/-- A Python runtime value, as far as the `==` tests in
`get_intersection_queues` need: the method compares `car.direction`, which is
always an `int` 2-tuple, against the string literals `"NORTH"`, `"SOUTH"`,
`"EAST"`, `"WEST"`. -/
inductive PyVal where
  | tup : Int → Int → PyVal
  | str : String → PyVal
deriving DecidableEq

/-- Python `==` on such values: tuples compare componentwise, strings by
content, and a tuple never equals a string. -/
def pyEq : PyVal → PyVal → Bool
  | .tup a b, .tup a2 b2 => a == a2 && b == b2
  | .str s, .str t => s == t
  | _, _ => false

/-- The per-car body of the `get_intersection_queues` loop over `self.cars`:
the `if`/`elif` chain updating the four arm counters.  The direction tests are
transcribed as written in the source: `car.direction == "NORTH"` etc., a
comparison of the direction tuple against a string. -/
def queueArmStep (xmin xmax ymin ymax : Int) (acc : Nat × Nat × Nat × Nat)
    (c : Car) : Nat × Nat × Nat × Nat :=
  if !c.waiting then acc
  else
    let d := PyVal.tup c.direction.1 c.direction.2
    if pyEq d (.str "NORTH") && c.x == xmax && ymax < c.y && c.y ≤ ymax + 5 then
      (acc.1 + 1, acc.2.1, acc.2.2.1, acc.2.2.2)
    else if pyEq d (.str "SOUTH") && c.x == xmin && c.y < ymin && ymin - 5 ≤ c.y then
      (acc.1, acc.2.1 + 1, acc.2.2.1, acc.2.2.2)
    else if pyEq d (.str "EAST") && c.y == ymax && c.x < xmin && xmin - 5 ≤ c.x then
      (acc.1, acc.2.1, acc.2.2.1 + 1, acc.2.2.2)
    else if pyEq d (.str "WEST") && c.y == ymin && xmax < c.x && c.x ≤ xmax + 5 then
      (acc.1, acc.2.1, acc.2.2.1, acc.2.2.2 + 1)
    else acc

/-- `Simulation.get_intersection_queues(intersection_id)`: walks the waiting
cars and counts the four approach arms within 5 cells, in the order
northbound, southbound, eastbound, westbound. -/
def getIntersectionQueues (s : SimState) (id : Nat) : List Nat :=
  match boundsOf id with
  | none => [0, 0, 0, 0]
  | some (xmin, xmax, ymin, ymax) =>
      let q := s.cars.foldl (queueArmStep xmin xmax ymin ymax) (0, 0, 0, 0)
      [q.1, q.2.1, q.2.2.1, q.2.2.2]

/-! ### set_intersection_light_phase

`Simulation.set_intersection_light_phase` calls `light.set_state(...)` and
`light.set_manual_mode(True)` on its four `TrafficLight` objects.  The
`TrafficLight` class defines neither attribute (see
`TrafficLight.attrNames`), so in Python the first such call raises
`AttributeError`; the embedding returns the raised error through `Except`.
The `.ok` branches guarded by the attribute lookups are the unreachable
would-be semantics. -/
def setIntersectionLightPhase (s : SimState) (id : Nat) (phase : Nat) :
    Except String SimState :=
  match boundsOf id with
  | none => .ok s
  | some _ =>
      if phase = 0 ∨ phase = 1 then
        if TrafficLight.attrNames.contains "set_state" then .ok s
        else .error "AttributeError: TrafficLight object has no attribute set_state"
      else
        if TrafficLight.attrNames.contains "set_manual_mode" then .ok s
        else .error "AttributeError: TrafficLight object has no attribute set_manual_mode"

/-- The inverse of `Car.checkPos` for a cardinal heading: the car cell whose
check cell is `p`. -/
def invCheckPos (d : Dir) (p : Int × Int) : Int × Int :=
  if d = SOUTH then (p.1 + 1, p.2)
  else if d = NORTH then (p.1 - 1, p.2)
  else if d = EAST then (p.1, p.2 - 1)
  else if d = WEST then (p.1, p.2 + 1)
  else p

/-- Sum of the cumulative wait counters over a list of cars. -/
def carsTotalSum (l : List Car) : Nat :=
  (l.map Car.total_wait_time).sum

/-- Number of cars whose waiting flag is set. -/
def waitingCount (l : List Car) : Nat :=
  l.countP (fun c => c.waiting)

/-- The wait time accrued during one `step`: the number of cars that finish
their processing this tick with the waiting flag set (each such car's
`increment_wait_time` adds exactly one tick). -/
def tickWaitIncrement (bld : Int → Int → Bool) (rd : Nat) (pick freshId : Nat)
    (choose : Nat → List Dir → Dir) (s : SimState) : Nat :=
  waitingCount (movePhase bld (preMovePhase s pick freshId).traffic_lights rd
    choose [] (preMovePhase s pick freshId).cars)

/-- The wait time accrued at tick `n` of a run. -/
def tickWaitIncrementAt (bld : Int → Int → Bool) (rd : Nat)
    (picks fids : Nat → Nat) (chooses : Nat → Nat → List Dir → Dir)
    (n : Nat) : Nat :=
  tickWaitIncrement bld rd (picks n) (fids n) (chooses n)
    (runSim bld rd picks fids chooses n)

/-!
## Theorems
-/

/-- **C1.**  constants.py defines no `RESTART_DELAY`, so the from-import of
that name at the top of car.py raises `ImportError`: the Car module never
loads and no `Simulation` can be constructed; in particular the single
missing name is `RESTART_DELAY` (the four direction names all resolve). -/
theorem C1_car_module_import_fails :
    carModuleLoads = false ∧
    importFrom constantsNames "RESTART_DELAY" = false ∧
    importFrom constantsNames "NORTH" = true ∧
    importFrom constantsNames "SOUTH" = true ∧
    importFrom constantsNames "EAST" = true ∧
    importFrom constantsNames "WEST" = true := by decide

/-- **C2.**  `set_intersection_light_phase` on a valid intersection id never
forces any light assignment: the `TrafficLight` class defines neither
`set_state` nor `set_manual_mode` (its attributes are `TrafficLight.attrNames`),
so for both valid ids and both phases the call raises `AttributeError` instead
of returning an updated state. -/
theorem C2_set_phase_raises_attribute_error :
    TrafficLight.attrNames.contains "set_state" = false ∧
    TrafficLight.attrNames.contains "set_manual_mode" = false ∧
    setIntersectionLightPhase initSimState 0 0 =
      .error "AttributeError: TrafficLight object has no attribute set_state" ∧
    setIntersectionLightPhase initSimState 0 1 =
      .error "AttributeError: TrafficLight object has no attribute set_state" ∧
    setIntersectionLightPhase initSimState 1 0 =
      .error "AttributeError: TrafficLight object has no attribute set_state" ∧
    setIntersectionLightPhase initSimState 1 1 =
      .error "AttributeError: TrafficLight object has no attribute set_state" :=
  ⟨rfl, rfl, rfl, rfl, rfl, rfl⟩

/-- Each step of the `get_intersection_queues` car loop leaves the four
counters unchanged: every branch guard compares the direction tuple with a
string, which is `False` in Python. -/
theorem queueArmStep_fixed (xmin xmax ymin ymax : Int)
    (acc : Nat × Nat × Nat × Nat) (c : Car) :
    queueArmStep xmin xmax ymin ymax acc c = acc := by
  unfold queueArmStep
  cases hw : c.waiting <;> simp [hw, pyEq]

/-- **C4.**  `get_intersection_queues` never counts any car: the source
compares `car.direction` (an `int` 2-tuple) against the string literals
`"NORTH"`/`"SOUTH"`/`"EAST"`/`"WEST"`, so every arm test is `False` and the
result is `[0, 0, 0, 0]` for every simulation state and every id — not the
actual approach-lane counts. -/
theorem C4_queues_always_zero (s : SimState) (id : Nat) :
    getIntersectionQueues s id = [0, 0, 0, 0] := by
  unfold getIntersectionQueues
  cases h : boundsOf id with
  | none => rfl
  | some b =>
      obtain ⟨xmin, xmax, ymin, ymax⟩ := b
      have hfold : ∀ (l : List Car) (acc : Nat × Nat × Nat × Nat),
          l.foldl (queueArmStep xmin xmax ymin ymax) acc = acc := by
        intro l
        induction l with
        | nil => intro acc; rfl
        | cons c tl ih =>
            intro acc
            simp [List.foldl_cons, queueArmStep_fixed, ih]
      simp [hfold]

/-- **C4, witness.**  The universal theorem applied to a state holding a
genuinely waiting northbound car 2 cells up the approach of intersection 0:
the reported queues are still all zero. -/
theorem C4_witness :
    getIntersectionQueues
      ⟨[⟨1, 6, 13, NORTH, true, none, 0, 3, 2, 0, true⟩], initLights, 4, 0, 1, 20⟩ 0 =
      [0, 0, 0, 0] :=
  C4_queues_always_zero
    ⟨[⟨1, 6, 13, NORTH, true, none, 0, 3, 2, 0, true⟩], initLights, 4, 0, 1, 20⟩ 0

/-- **C5, counterexample.**  30 is a positive multiple of 30, yet none of the
simulation's lights (each initialized Green or Red with cycle length 30 and no
manual mode) is back in its initial state after 30 `update()` calls: a light
toggles every 30 ticks, so after 30 ticks the Green/Red configuration is
exactly swapped, not restored. -/
theorem C5_counterexample :
    (⟨4, 9, "VERTICAL", GREEN, 0, 30⟩ : TrafficLight) ∈ initLights ∧
    (⟨4, 12, "HORIZONTAL", RED, 0, 30⟩ : TrafficLight) ∈ initLights ∧
    (TrafficLight.updateN 30 (⟨4, 9, "VERTICAL", GREEN, 0, 30⟩ : TrafficLight)).state = RED ∧
    (TrafficLight.updateN 30 (⟨4, 12, "HORIZONTAL", RED, 0, 30⟩ : TrafficLight)).state = GREEN ∧
    RED ≠ GREEN := by decide

theorem TrafficLight.updateN_add (a b : Nat) (l : TrafficLight) :
    TrafficLight.updateN (a + b) l =
      TrafficLight.updateN b (TrafficLight.updateN a l) := by
  induction a generalizing l with
  | zero => simp [TrafficLight.updateN]
  | succ n ih =>
      have h : n + 1 + b = (n + b) + 1 := by omega
      rw [h]
      show TrafficLight.updateN (n + b) l.update = _
      rw [ih]
      rfl

theorem TrafficLight.toggle_timer (l : TrafficLight) (t : Nat) :
    ({ l with timer := t } : TrafficLight).toggle = { l.toggle with timer := t } := by
  unfold TrafficLight.toggle
  by_cases h : l.state = RED <;> simp [h]

/-- An `update()` that does not reach the cycle length only advances the
timer. -/
theorem TrafficLight.update_no_toggle (l : TrafficLight)
    (h : l.timer + 1 < l.cycle_time) :
    l.update = { l with timer := l.timer + 1 } := by
  unfold TrafficLight.update
  simp only
  rw [if_neg (by simp; omega)]

/-- An `update()` that reaches the cycle length toggles the state and resets
the timer. -/
theorem TrafficLight.update_toggles (l : TrafficLight)
    (h : l.cycle_time ≤ l.timer + 1) :
    l.update = { l.toggle with timer := 0 } := by
  unfold TrafficLight.update
  simp only
  rw [if_pos (by simpa using h), TrafficLight.toggle_timer]

/-- While the timer stays strictly below the cycle length, `update()` calls
only advance the timer. -/
theorem TrafficLight.updateN_no_toggle (k : Nat) (l : TrafficLight)
    (h : l.timer + k < l.cycle_time) :
    TrafficLight.updateN k l = { l with timer := l.timer + k } := by
  induction k generalizing l with
  | zero => simp [TrafficLight.updateN]
  | succ n ih =>
      show TrafficLight.updateN n l.update = _
      rw [TrafficLight.update_no_toggle l (by omega)]
      rw [ih _ (by simp only; omega)]
      simp only
      congr 1
      omega

/-- One full cycle from a zero timer: the state toggles and the timer returns
to zero. -/
theorem TrafficLight.updateN_cycle (l : TrafficLight) (ht : l.timer = 0)
    (hc : 0 < l.cycle_time) :
    TrafficLight.updateN l.cycle_time l = { l.toggle with timer := 0 } := by
  obtain ⟨c, hcv⟩ : ∃ c, l.cycle_time = c + 1 := ⟨l.cycle_time - 1, by omega⟩
  rw [hcv, TrafficLight.updateN_add c 1 l]
  rw [TrafficLight.updateN_no_toggle c l (by omega)]
  show ({ l with timer := l.timer + c } : TrafficLight).update = _
  rw [TrafficLight.update_toggles _ (by simp only; omega)]
  rw [TrafficLight.toggle_timer]

/-- Starting from a zero timer and cycle length 30, sixty `update()` calls
toggle the state twice and return the timer to zero: the light is restored
exactly. -/
theorem TrafficLight.updateN_sixty (l : TrafficLight) (ht : l.timer = 0)
    (hc : l.cycle_time = 30) (hs : l.state = RED ∨ l.state = GREEN) :
    TrafficLight.updateN 60 l = l := by
  have h60 : (60 : Nat) = 30 + 30 := by norm_num
  rw [h60, TrafficLight.updateN_add]
  have h1 : TrafficLight.updateN 30 l = { l.toggle with timer := 0 } := by
    rw [← hc]
    exact TrafficLight.updateN_cycle l ht (by omega)
  rw [h1]
  have h2 : TrafficLight.updateN 30 { l.toggle with timer := 0 } =
      { ({ l.toggle with timer := 0 } : TrafficLight).toggle with timer := 0 } := by
    have hct : ({ l.toggle with timer := 0 } : TrafficLight).cycle_time = 30 := by
      unfold TrafficLight.toggle
      by_cases hsr : l.state = RED <;> simp [hsr, hc]
    rw [← hct]
    exact TrafficLight.updateN_cycle _ rfl (by rw [hct]; omega)
  rw [h2]
  obtain ⟨x, y, ax, st, tm, ct⟩ := l
  simp only at ht hc
  subst ht hc
  rcases hs with h | h <;> simp only at h <;> subst h <;> rfl

/-- **C5, amended.**  Two lights with cycle length 30 and zero timers, one
Green and one Red, are back in their initial configuration after any multiple
of **60** `update()` calls (even multiples of 30); after odd multiples of 30
the configuration is exactly swapped (see the counterexample). -/
theorem C5_lights_restored_after_60k (k : Nat) (l1 l2 : TrafficLight)
    (h1t : l1.timer = 0) (h1c : l1.cycle_time = 30) (h1s : l1.state = GREEN)
    (h2t : l2.timer = 0) (h2c : l2.cycle_time = 30) (h2s : l2.state = RED) :
    TrafficLight.updateN (60 * k) l1 = l1 ∧
    TrafficLight.updateN (60 * k) l2 = l2 := by
  induction k with
  | zero => exact ⟨rfl, rfl⟩
  | succ n ih =>
      have h : 60 * (n + 1) = 60 * n + 60 := by ring
      rw [h, TrafficLight.updateN_add, TrafficLight.updateN_add]
      rw [ih.1, ih.2]
      exact ⟨TrafficLight.updateN_sixty l1 h1t h1c (Or.inr h1s),
             TrafficLight.updateN_sixty l2 h2t h2c (Or.inl h2s)⟩

/-- **C5, witness.**  The amended theorem applied to the first pair of
constructed lights at `k = 1`. -/
theorem C5_witness :
    TrafficLight.updateN (60 * 1) (⟨4, 9, "VERTICAL", GREEN, 0, 30⟩ : TrafficLight) =
      (⟨4, 9, "VERTICAL", GREEN, 0, 30⟩ : TrafficLight) ∧
    TrafficLight.updateN (60 * 1) (⟨4, 12, "HORIZONTAL", RED, 0, 30⟩ : TrafficLight) =
      (⟨4, 12, "HORIZONTAL", RED, 0, 30⟩ : TrafficLight) :=
  C5_lights_restored_after_60k 1 _ _ rfl rfl rfl rfl rfl rfl

/-- `_update_direction_at_intersection` only rewrites `direction` and
`entry_direction`: position, flags and counters are untouched. -/
theorem Car.updateDirection_preserves (c : Car) (bld : Int → Int → Bool)
    (others : List Car) (choose : List Dir → Dir) :
    (c.updateDirectionAtIntersection bld others choose).x = c.x ∧
    (c.updateDirectionAtIntersection bld others choose).y = c.y ∧
    (c.updateDirectionAtIntersection bld others choose).waiting = c.waiting ∧
    (c.updateDirectionAtIntersection bld others choose).total_wait_time = c.total_wait_time ∧
    (c.updateDirectionAtIntersection bld others choose).current_wait_time = c.current_wait_time := by
  have he : (c.entryUpdate bld).x = c.x ∧ (c.entryUpdate bld).y = c.y ∧
      (c.entryUpdate bld).waiting = c.waiting ∧
      (c.entryUpdate bld).total_wait_time = c.total_wait_time ∧
      (c.entryUpdate bld).current_wait_time = c.current_wait_time := by
    unfold Car.entryUpdate
    repeat' split
    all_goals simp
  obtain ⟨h1, h2, h3, h4, h5⟩ := he
  unfold Car.updateDirectionAtIntersection
  dsimp only
  refine ⟨?_, ?_, ?_, ?_, ?_⟩ <;> (split <;> try split)
  all_goals simp_all

theorem Car.moveFinal_counters (c : Car) (bld : Int → Int → Bool)
    (others : List Car) (rd : Nat) (choose : List Dir → Dir) :
    (c.moveFinal bld others rd choose).1.total_wait_time = c.total_wait_time ∧
    (c.moveFinal bld others rd choose).1.current_wait_time = c.current_wait_time := by
  unfold Car.moveFinal
  dsimp only
  refine ⟨?_, ?_⟩ <;> (split <;> try split)
  all_goals simp [Car.updateDirection_preserves]

theorem Car.moveCollision_counters (c : Car) (bld : Int → Int → Bool)
    (others : List Car) (rd : Nat) (choose : List Dir → Dir) :
    (c.moveCollision bld others rd choose).1.total_wait_time = c.total_wait_time ∧
    (c.moveCollision bld others rd choose).1.current_wait_time = c.current_wait_time := by
  unfold Car.moveCollision
  split
  · exact ⟨rfl, rfl⟩
  · exact Car.moveFinal_counters c bld others rd choose

theorem Car.moveSignal_counters (c : Car) (bld : Int → Int → Bool)
    (lights : List TrafficLight) (others : List Car) (rd : Nat)
    (choose : List Dir → Dir) :
    (c.moveSignal bld lights others rd choose).1.total_wait_time = c.total_wait_time ∧
    (c.moveSignal bld lights others rd choose).1.current_wait_time = c.current_wait_time := by
  unfold Car.moveSignal
  dsimp only
  split
  · exact ⟨rfl, rfl⟩
  · split
    · exact ⟨rfl, rfl⟩
    · exact Car.moveCollision_counters c bld others rd choose

theorem Car.moveBoundary_counters (c : Car) (bld : Int → Int → Bool)
    (lights : List TrafficLight) (others : List Car) (rd : Nat)
    (choose : List Dir → Dir) :
    (c.moveBoundary bld lights others rd choose).1.total_wait_time = c.total_wait_time ∧
    (c.moveBoundary bld lights others rd choose).1.current_wait_time = c.current_wait_time := by
  unfold Car.moveBoundary
  split
  · exact ⟨rfl, rfl⟩
  · split
    · exact ⟨rfl, rfl⟩
    · exact Car.moveSignal_counters c bld lights others rd choose

/-- `move` never touches the two wait-time counters (they change only in
`increment_wait_time`). -/
theorem Car.move_counters (c : Car) (bld : Int → Int → Bool)
    (lights : List TrafficLight) (others : List Car) (rd : Nat)
    (choose : List Dir → Dir) :
    (c.move bld lights others rd choose).1.total_wait_time = c.total_wait_time ∧
    (c.move bld lights others rd choose).1.current_wait_time = c.current_wait_time := by
  unfold Car.move
  dsimp only
  split
  · exact ⟨rfl, rfl⟩
  · split <;> simpa using Car.moveBoundary_counters _ bld lights others rd choose

theorem Car.moveFinal_waiting (c : Car) (bld : Int → Int → Bool)
    (others : List Car) (rd : Nat) (choose : List Dir → Dir) :
    ((c.moveFinal bld others rd choose).2 = true →
      (c.moveFinal bld others rd choose).1.waiting = false) ∧
    ((c.moveFinal bld others rd choose).2 = false →
      (c.moveFinal bld others rd choose).1.waiting = true) := by
  unfold Car.moveFinal
  dsimp only
  refine ⟨?_, ?_⟩ <;> (split <;> try split)
  all_goals simp [Car.updateDirection_preserves]

theorem Car.moveCollision_waiting (c : Car) (bld : Int → Int → Bool)
    (others : List Car) (rd : Nat) (choose : List Dir → Dir) :
    ((c.moveCollision bld others rd choose).2 = true →
      (c.moveCollision bld others rd choose).1.waiting = false) ∧
    ((c.moveCollision bld others rd choose).2 = false →
      (c.moveCollision bld others rd choose).1.waiting = true) := by
  unfold Car.moveCollision
  split
  · simp
  · exact Car.moveFinal_waiting c bld others rd choose

theorem Car.moveSignal_waiting (c : Car) (bld : Int → Int → Bool)
    (lights : List TrafficLight) (others : List Car) (rd : Nat)
    (choose : List Dir → Dir) :
    ((c.moveSignal bld lights others rd choose).2 = true →
      (c.moveSignal bld lights others rd choose).1.waiting = false) ∧
    ((c.moveSignal bld lights others rd choose).2 = false →
      (c.moveSignal bld lights others rd choose).1.waiting = true) := by
  unfold Car.moveSignal
  dsimp only
  split
  · simp
  · split
    · simp
    · exact Car.moveCollision_waiting c bld others rd choose

theorem Car.moveBoundary_waiting (c : Car) (bld : Int → Int → Bool)
    (lights : List TrafficLight) (others : List Car) (rd : Nat)
    (choose : List Dir → Dir)
    (hroad : inBounds (c.x + c.direction.1) (c.y + c.direction.2) = true →
      isRoad bld (c.x + c.direction.1) (c.y + c.direction.2) = true)
    (hexit : inBounds (c.x + c.direction.1) (c.y + c.direction.2) = false →
      c.waiting = false) :
    ((c.moveBoundary bld lights others rd choose).2 = true →
      (c.moveBoundary bld lights others rd choose).1.waiting = false) ∧
    ((c.moveBoundary bld lights others rd choose).2 = false →
      (c.moveBoundary bld lights others rd choose).1.waiting = true) := by
  unfold Car.moveBoundary
  split
  · next h =>
      simp only [Bool.not_eq_true'] at h
      constructor
      · intro _
        simpa using hexit h
      · intro hf
        simp at hf
  · next h =>
      simp only [Bool.not_eq_true', Bool.not_eq_false] at h
      split
      · next h2 =>
          simp only [Bool.not_eq_true'] at h2
          rw [hroad h] at h2
          cases h2
      · exact Car.moveSignal_waiting c bld lights others rd choose

/-- On a tick where every refusal gate can see only road or off-map ahead,
`move` returns `True` exactly when the resulting waiting flag is `False`. -/
theorem Car.move_waiting (c : Car) (bld : Int → Int → Bool)
    (lights : List TrafficLight) (others : List Car) (rd : Nat)
    (choose : List Dir → Dir)
    (hroad : inBounds (c.x + c.direction.1) (c.y + c.direction.2) = true →
      isRoad bld (c.x + c.direction.1) (c.y + c.direction.2) = true)
    (hexit : inBounds (c.x + c.direction.1) (c.y + c.direction.2) = false →
      c.waiting = false) :
    ((c.move bld lights others rd choose).2 = true →
      (c.move bld lights others rd choose).1.waiting = false) ∧
    ((c.move bld lights others rd choose).2 = false →
      (c.move bld lights others rd choose).1.waiting = true) := by
  unfold Car.move
  dsimp only
  split
  · simp
  · split <;> exact Car.moveBoundary_waiting _ bld lights others rd choose hroad hexit

/-- **C6.**  Over one tick of a car's processing (`move()` followed by
`increment_wait_time()`), the consecutive-wait counter ends at 0 exactly when
the car advanced, and the cumulative-wait counter never decreases.  The two
hypotheses record facts that hold throughout a car's lifetime on this map:
the cell ahead, when on the map, is road (cars travel along one-way lanes),
and a car about to drive off the map is not in a waiting state (its move is
unconditionally permitted, so nothing ever sets its flag at the border
cell). -/
theorem C6_wait_counter_reset_iff_advance (c : Car) (bld : Int → Int → Bool)
    (lights : List TrafficLight) (others : List Car) (rd : Nat)
    (choose : List Dir → Dir)
    (hroad : inBounds (c.x + c.direction.1) (c.y + c.direction.2) = true →
      isRoad bld (c.x + c.direction.1) (c.y + c.direction.2) = true)
    (hexit : inBounds (c.x + c.direction.1) (c.y + c.direction.2) = false →
      c.waiting = false) :
    ((carTick c bld lights others rd choose).1.current_wait_time = 0 ↔
      (carTick c bld lights others rd choose).2 = true) ∧
    c.total_wait_time ≤ (carTick c bld lights others rd choose).1.total_wait_time := by
  have hw := Car.move_waiting c bld lights others rd choose hroad hexit
  have hc := Car.move_counters c bld lights others rd choose
  unfold carTick Car.incrementWaitTime
  dsimp only
  cases hm : (c.move bld lights others rd choose).2 with
  | true =>
      rw [hw.1 hm]
      simp [hm, hc.1]
  | false =>
      rw [hw.2 hm]
      simp [hm, hc.2]
      omega

/-- **C6, witness.**  A concrete car on the eastbound lane with a clear road
cell ahead: the tick advances it and resets the consecutive-wait counter. -/
theorem C6_witness :
    ((carTick (mkCar 1 0 11 EAST) (fun _ _ => false) initLights [] 2
        (fun l => l.headD EAST)).1.current_wait_time = 0 ↔
      (carTick (mkCar 1 0 11 EAST) (fun _ _ => false) initLights [] 2
        (fun l => l.headD EAST)).2 = true) ∧
    (mkCar 1 0 11 EAST).total_wait_time ≤
      (carTick (mkCar 1 0 11 EAST) (fun _ _ => false) initLights [] 2
        (fun l => l.headD EAST)).1.total_wait_time :=
  C6_wait_counter_reset_iff_advance (mkCar 1 0 11 EAST) (fun _ _ => false)
    initLights [] 2 (fun l => l.headD EAST) (by decide) (by decide)

/-- **C10.**  A spawn attempt never pushes the population above the cap, and
a car is actually added only when the population was strictly below the cap
and the chosen spawn point was unoccupied (in which case the new car sits at
that spawn point).  The hypothesis that the population already respects the
cap is the invariant maintained from the empty initial state. -/
theorem C10_spawn_respects_cap (s : SimState) (pick freshId : Nat)
    (h : s.cars.length ≤ MAX_CARS) :
    (spawnCar s pick freshId).cars.length ≤ MAX_CARS ∧
    (s.cars.length < (spawnCar s pick freshId).cars.length →
      s.cars.length < MAX_CARS ∧
      ∃ p ∈ spawnPoints,
        (spawnCar s pick freshId).cars = s.cars ++ [mkCar freshId p.1 p.2.1 p.2.2] ∧
        s.cars.all (fun c => !(c.x == p.1 && c.y == p.2.1)) = true) := by
  unfold spawnCar
  split
  · exact ⟨h, by omega⟩
  · next hlt =>
      cases hget : spawnPoints.get? (pick % spawnPoints.length) with
      | none =>
          dsimp only
          exact ⟨h, by omega⟩
      | some p =>
          obtain ⟨px, py, pd⟩ := p
          dsimp only
          split
          · exact ⟨h, by omega⟩
          · next hocc =>
              constructor
              · simp only [List.length_append, List.length_cons, List.length_nil]
                omega
              · intro _
                refine ⟨by omega, (px, py, pd), ?_, rfl, ?_⟩
                · exact List.get?_mem hget
                · simp only [Bool.not_eq_true] at hocc
                  rw [List.all_eq_not_any_not]
                  simp only [Bool.not_not]
                  rw [Bool.not_eq_true']
                  exact hocc

/-- **C10, witness.**  Spawning into the freshly constructed simulation adds
one car at the first spawn point, staying within the cap. -/
theorem C10_witness :
    (spawnCar initSimState 0 7).cars.length ≤ MAX_CARS ∧
    (initSimState.cars.length < (spawnCar initSimState 0 7).cars.length →
      initSimState.cars.length < MAX_CARS ∧
      ∃ p ∈ spawnPoints,
        (spawnCar initSimState 0 7).cars =
          initSimState.cars ++ [mkCar 7 p.1 p.2.1 p.2.2] ∧
        initSimState.cars.all (fun c => !(c.x == p.1 && c.y == p.2.1)) = true) :=
  C10_spawn_respects_cap initSimState 0 7 (by decide)

/-- Every allowed lane heading is one of the four cardinal directions. -/
theorem mem_getAllowedDirections (x y : Int) (d : Dir)
    (h : d ∈ getAllowedDirections x y) :
    d = NORTH ∨ d = SOUTH ∨ d = EAST ∨ d = WEST := by
  unfold getAllowedDirections at h
  split_ifs at h <;> simp_all

theorem Car.occupiedBy_eq_false (others : List Car) (selfId : Nat) (tx ty : Int)
    (h : ∀ o ∈ others, o.id = selfId ∨ ¬(o.x = tx ∧ o.y = ty)) :
    Car.occupiedBy others selfId tx ty = false := by
  unfold Car.occupiedBy
  rw [List.any_eq_false]
  intro o ho
  rcases h o ho with h1 | h2
  · simp [h1]
  · intro hcontra
    simp only [Bool.and_eq_true, bne_iff_ne, beq_iff_eq] at hcontra
    exact h2 ⟨hcontra.1.2, hcontra.2⟩

/-- When the deadlock-escape gate is armed and some alternative allowed
heading has a clear, road-valid target, `moveFinal` reroutes: it returns
`True` and the car leaves its cell. -/
theorem Car.moveFinal_escapes (c : Car) (bld : Int → Int → Bool)
    (others : List Car) (rd : Nat) (choose : List Dir → Dir)
    (hin : isIntersection bld c.x c.y = true)
    (hticks : 5 < c.ticks_in_intersection)
    (halt : ∃ d ∈ getAllowedDirections c.x c.y, d ≠ c.direction ∧
      isRoad bld (c.x + d.1) (c.y + d.2) = true ∧
      ∀ o ∈ others, o.id = c.id ∨ ¬(o.x = c.x + d.1 ∧ o.y = c.y + d.2)) :
    (c.moveFinal bld others rd choose).2 = true ∧
    ((c.moveFinal bld others rd choose).1.x ≠ c.x ∨
      (c.moveFinal bld others rd choose).1.y ≠ c.y) := by
  obtain ⟨d, hd, hne, hdroad, hdclear⟩ := halt
  have hsome : (Car.findEscape c bld others (getAllowedDirections c.x c.y)).isSome = true := by
    rw [Car.findEscape, List.find?_isSome]
    refine ⟨d, hd, ?_⟩
    rw [Car.occupiedBy_eq_false others c.id _ _ hdclear]
    simp [hne, hdroad]
  obtain ⟨d2, hd2⟩ := Option.isSome_iff_exists.mp hsome
  have hd2mem : d2 ∈ getAllowedDirections c.x c.y :=
    List.mem_of_find?_eq_some hd2
  have hcard := mem_getAllowedDirections c.x c.y d2 hd2mem
  have hmove : c.moveFinal bld others rd choose =
      ({ c with direction := d2, x := c.x + d2.1, y := c.y + d2.2,
                waiting := false, ticks_in_intersection := 0 }, true) := by
    unfold Car.moveFinal
    rw [if_pos (by simp [hin, hticks]), hd2]
  rw [hmove]
  refine ⟨rfl, ?_⟩
  rcases hcard with h | h | h | h <;> subst h <;> simp [NORTH, SOUTH, EAST, WEST]

/-- **C3, counterexample.**  A car inside intersection cell `(5, 10)` that has
already spent 6 consecutive ticks there, whose permitted exit heading `West`
leads to the unoccupied road cell `(4, 10)`, but whose restart-delay counter
is still positive: on the following `move()` call the restart gate fires
first, so the car neither advances nor reroutes — the deadlock escape is not
independent of the earlier gates. -/
theorem C3_counterexample :
    isIntersection (fun _ _ => false) 5 10 = true ∧
    5 < (6 : Nat) ∧
    WEST ∈ getAllowedDirections 5 10 ∧
    isRoad (fun _ _ => false) (5 + WEST.1) (10 + WEST.2) = true ∧
    (Car.move ⟨1, 5, 10, WEST, false, none, 6, 0, 0, 1, false⟩
      (fun _ _ => false) initLights [] 2 (fun l => l.headD WEST)).2 = false ∧
    (Car.move ⟨1, 5, 10, WEST, false, none, 6, 0, 0, 1, false⟩
      (fun _ _ => false) initLights [] 2 (fun l => l.headD WEST)).1.x = 5 ∧
    (Car.move ⟨1, 5, 10, WEST, false, none, 6, 0, 0, 1, false⟩
      (fun _ _ => false) initLights [] 2 (fun l => l.headD WEST)).1.y = 10 ∧
    (Car.move ⟨1, 5, 10, WEST, false, none, 6, 0, 0, 1, false⟩
      (fun _ _ => false) initLights [] 2 (fun l => l.headD WEST)).1.direction = WEST := by
  decide

/-- **C3, amended.**  The deadlock escape is gated, not independent: it runs
only after the restart-delay, road-validity, signal, conflict and following
gates have all declined to refuse the tick.  Under those conditions a car
with more than 5 consecutive ticks inside an intersection does advance or
reroute whenever an alternative permitted exit heading has an unoccupied,
road-valid target cell: `move()` returns `True` and the position changes. -/
theorem C3_deadlock_escape_gated (c : Car) (bld : Int → Int → Bool)
    (lights : List TrafficLight) (others : List Car) (rd : Nat)
    (choose : List Dir → Dir)
    (hin : isIntersection bld c.x c.y = true)
    (hticks : 5 ≤ c.ticks_in_intersection)
    (hrestart : c.restart_delay_counter = 0)
    (hroad : inBounds (c.x + c.direction.1) (c.y + c.direction.2) = true →
      isRoad bld (c.x + c.direction.1) (c.y + c.direction.2) = true)
    (hlight : Car.findLightAt lights (Car.checkPos c.direction c.x c.y) = none)
    (hclear : ∀ o ∈ others, o.id = c.id ∨
      ¬(o.x = c.x + c.direction.1 ∧ o.y = c.y + c.direction.2))
    (halt : ∃ d ∈ getAllowedDirections c.x c.y, d ≠ c.direction ∧
      isRoad bld (c.x + d.1) (c.y + d.2) = true ∧
      ∀ o ∈ others, o.id = c.id ∨ ¬(o.x = c.x + d.1 ∧ o.y = c.y + d.2)) :
    (c.move bld lights others rd choose).2 = true ∧
    ((c.move bld lights others rd choose).1.x ≠ c.x ∨
      (c.move bld lights others rd choose).1.y ≠ c.y) := by
  have hinB : inBounds c.x c.y = true := by
    rw [isIntersection_eq] at hin
    simp only [Bool.and_eq_true] at hin
    exact hin.1
  have hc1 : c.move bld lights others rd choose =
      Car.moveBoundary { c with ticks_in_intersection := c.ticks_in_intersection + 1 }
        bld lights others rd choose := by
    unfold Car.move
    rw [if_neg (by omega), if_pos hin]
  set c1 : Car := { c with ticks_in_intersection := c.ticks_in_intersection + 1 } with hc1def
  rw [hc1]
  by_cases hb : inBounds (c.x + c.direction.1) (c.y + c.direction.2) = true
  · -- on-map: all gates pass and the escape fires
    have hb2 : Car.moveBoundary c1 bld lights others rd choose =
        Car.moveSignal c1 bld lights others rd choose := by
      unfold Car.moveBoundary
      rw [if_neg (by simp [hc1def, hb]), if_neg (by simp [hc1def, hroad hb])]
    have hb3 : Car.moveSignal c1 bld lights others rd choose =
        Car.moveCollision c1 bld others rd choose := by
      unfold Car.moveSignal
      dsimp only
      rw [if_neg (by simp [hc1def, hlight]), if_neg (by simp [hc1def, hin])]
    have hanyfalse : (others.any (fun o =>
        o.id != c1.id && o.x == c1.x + c1.direction.1 && o.y == c1.y + c1.direction.2 &&
        !(isIntersection bld c1.x c1.y && 3 < c1.ticks_in_intersection &&
          !(isIntersection bld o.x o.y)))) = false := by
      rw [List.any_eq_false]
      intro o ho
      rcases hclear o ho with h1 | h2
      · simp [hc1def, h1]
      · intro hcontra
        simp only [Bool.and_eq_true, bne_iff_ne, beq_iff_eq, hc1def] at hcontra
        exact h2 ⟨hcontra.1.1.2, hcontra.1.2⟩
    have hb4 : Car.moveCollision c1 bld others rd choose =
        Car.moveFinal c1 bld others rd choose := by
      unfold Car.moveCollision
      rw [if_neg (by rw [hanyfalse]; simp)]
    rw [hb2, hb3, hb4]
    have := Car.moveFinal_escapes c1 bld others rd choose
      (by simpa [hc1def] using hin) (by simp [hc1def]; omega)
      (by simpa [hc1def] using halt)
    simpa [hc1def] using this
  · -- off the map: the boundary gate itself advances the car
    have hb2 : Car.moveBoundary c1 bld lights others rd choose =
        ({ c1 with x := c1.x + c1.direction.1, y := c1.y + c1.direction.2 }, true) := by
      unfold Car.moveBoundary
      rw [if_pos (by simp [hc1def]; simpa [hc1def] using hb)]
    rw [hb2]
    refine ⟨rfl, ?_⟩
    by_contra hcon
    push_neg at hcon
    obtain ⟨hx, hy⟩ := hcon
    simp only [hc1def] at hx hy
    have hdx : c.direction.1 = 0 := by omega
    have hdy : c.direction.2 = 0 := by omega
    rw [hdx, hdy] at hb
    simp at hb
    rw [hinB] at hb
    cases hb

/-- **C3, witness.**  A car at intersection cell `(5, 10)` heading North with
a clear road ahead, 6 ticks inside, restart counter zero: its single
permitted exit heading West is an alternative with a clear road target, so
the amended theorem applies and the car reroutes. -/
theorem C3_witness :
    (Car.move ⟨1, 5, 10, NORTH, false, none, 6, 0, 0, 0, false⟩
      (fun _ _ => false) initLights [] 2 (fun l => l.headD WEST)).2 = true ∧
    ((Car.move ⟨1, 5, 10, NORTH, false, none, 6, 0, 0, 0, false⟩
        (fun _ _ => false) initLights [] 2 (fun l => l.headD WEST)).1.x ≠ 5 ∨
      (Car.move ⟨1, 5, 10, NORTH, false, none, 6, 0, 0, 0, false⟩
        (fun _ _ => false) initLights [] 2 (fun l => l.headD WEST)).1.y ≠ 10) :=
  C3_deadlock_escape_gated ⟨1, 5, 10, NORTH, false, none, 6, 0, 0, 0, false⟩
    (fun _ _ => false) initLights [] 2 (fun l => l.headD WEST)
    (by decide) (by decide) rfl (by decide) (by decide)
    (by intro o ho; cases ho)
    ⟨WEST, by decide, by decide, by decide, by intro o ho; cases ho⟩

theorem isRoad_of_isIntersection (bld : Int → Int → Bool) (x y : Int)
    (h : isIntersection bld x y = true) : isRoad bld x y = true := by
  rw [isIntersection_eq] at h
  rw [isRoad_eq]
  simp only [Bool.and_eq_true] at h ⊢
  exact ⟨h.1, by simp [h.2]⟩

/-- When the destination is an intersection cell and the light found at the
check cell is red, `moveBoundary` (and hence every later stage) refuses and
leaves the position unchanged. -/
theorem Car.moveBoundary_red_refuses (c : Car) (bld : Int → Int → Bool)
    (lights : List TrafficLight) (others : List Car) (rd : Nat)
    (choose : List Dir → Dir)
    (hnext : isIntersection bld (c.x + c.direction.1) (c.y + c.direction.2) = true)
    (l : TrafficLight)
    (hfind : Car.findLightAt lights (Car.checkPos c.direction c.x c.y) = some l)
    (hlred : l.isRed = true) :
    (c.moveBoundary bld lights others rd choose).2 = false ∧
    (c.moveBoundary bld lights others rd choose).1.x = c.x ∧
    (c.moveBoundary bld lights others rd choose).1.y = c.y := by
  have hinb : inBounds (c.x + c.direction.1) (c.y + c.direction.2) = true := by
    rw [isIntersection_eq] at hnext
    simp only [Bool.and_eq_true] at hnext
    exact hnext.1
  unfold Car.moveBoundary
  rw [if_neg (by simp [hinb])]
  rw [if_neg (by simp [isRoad_of_isIntersection bld _ _ hnext])]
  unfold Car.moveSignal
  dsimp only
  rw [if_pos (by rw [hnext, hfind]; simp [hlred])]
  exact ⟨rfl, rfl, rfl⟩

/-- `move` under a red light at an intersection entry: refusal with the
position unchanged, whatever the restart counter. -/
theorem Car.move_red_refuses (c : Car) (bld : Int → Int → Bool)
    (lights : List TrafficLight) (others : List Car) (rd : Nat)
    (choose : List Dir → Dir)
    (hnext : isIntersection bld (c.x + c.direction.1) (c.y + c.direction.2) = true)
    (l : TrafficLight)
    (hfind : Car.findLightAt lights (Car.checkPos c.direction c.x c.y) = some l)
    (hlred : l.isRed = true) :
    (c.move bld lights others rd choose).2 = false ∧
    (c.move bld lights others rd choose).1.x = c.x ∧
    (c.move bld lights others rd choose).1.y = c.y := by
  unfold Car.move
  dsimp only
  split
  · exact ⟨rfl, rfl, rfl⟩
  · split
    all_goals
      exact Car.moveBoundary_red_refuses _ bld lights others rd choose
        (by simpa using hnext) l (by simpa using hfind) hlred

theorem invCheckPos_checkPos (d : Dir) (x y : Int)
    (hd : d = NORTH ∨ d = SOUTH ∨ d = EAST ∨ d = WEST) :
    invCheckPos d (Car.checkPos d x y) = (x, y) := by
  rcases hd with h | h | h | h <;> subst h <;>
    simp [Car.checkPos, invCheckPos, NORTH, SOUTH, EAST, WEST]

/-- Checked against the eight constructed light positions: a car whose check
cell carries a light and whose forward cell is an intersection cell stands
itself outside every intersection cell. -/
theorem entry_key :
    ∀ p ∈ [((4 : Int), (9 : Int)), (7, 12), (4, 12), (7, 9),
           (19, 9), (22, 12), (19, 12), (22, 9)],
    ∀ d ∈ [NORTH, SOUTH, EAST, WEST],
      (inBounds ((invCheckPos d p).1 + d.1) ((invCheckPos d p).2 + d.2) &&
        interCell ((invCheckPos d p).1 + d.1) ((invCheckPos d p).2 + d.2)) = true →
      (inBounds (invCheckPos d p).1 (invCheckPos d p).2 &&
        interCell (invCheckPos d p).1 (invCheckPos d p).2) = false := by
  decide

/-- A cell whose check position carries one of the simulation's lights, and
whose forward neighbour is an intersection cell, is itself never an
intersection cell: the eight constructed light positions only guard approach
cells on the surrounding roads. -/
theorem checkPos_light_entry_outside (bld : Int → Int → Bool) (d : Dir)
    (x y : Int)
    (hcp : Car.checkPos d x y ∈
      [((4 : Int), (9 : Int)), (7, 12), (4, 12), (7, 9),
       (19, 9), (22, 12), (19, 12), (22, 9)])
    (hnext : isIntersection bld (x + d.1) (y + d.2) = true) :
    isIntersection bld x y = false := by
  have hd : d = NORTH ∨ d = SOUTH ∨ d = EAST ∨ d = WEST := by
    by_contra hnd
    push_neg at hnd
    obtain ⟨h1, h2, h3, h4⟩ := hnd
    unfold Car.checkPos at hcp
    rw [if_neg h2, if_neg h1, if_neg h3, if_neg h4] at hcp
    simp [Prod.ext_iff] at hcp
  have hdmem : d ∈ [NORTH, SOUTH, EAST, WEST] := by
    rcases hd with h | h | h | h <;> simp [h]
  have hxy := invCheckPos_checkPos d x y hd
  set p := Car.checkPos d x y with hpdef
  have hkey := entry_key p hcp d hdmem
  have hx : x = (invCheckPos d p).1 := by rw [hxy]
  have hy : y = (invCheckPos d p).2 := by rw [hxy]
  rw [isIntersection_eq] at hnext ⊢
  rw [hx, hy] at hnext ⊢
  exact hkey hnext

/-- **C9.**  On this map, with lights positioned where the `Simulation`
constructor places them (states arbitrary), a car whose destination cell is
an intersection and whose assigned approach light (the one found at the cell
to its right) is red is refused by `move()` with its position unchanged, and
that position is itself never an intersection cell: the car occupies no
intersection cell at the end of the tick. -/
theorem C9_red_light_never_enters_intersection (c : Car)
    (bld : Int → Int → Bool) (lights : List TrafficLight) (others : List Car)
    (rd : Nat) (choose : List Dir → Dir)
    (hpos : ∀ tl ∈ lights, (tl.x, tl.y) ∈ initLightPositions)
    (hnext : isIntersection bld (c.x + c.direction.1) (c.y + c.direction.2) = true)
    (l : TrafficLight)
    (hfind : Car.findLightAt lights (Car.checkPos c.direction c.x c.y) = some l)
    (hlred : l.isRed = true) :
    (c.move bld lights others rd choose).2 = false ∧
    (c.move bld lights others rd choose).1.x = c.x ∧
    (c.move bld lights others rd choose).1.y = c.y ∧
    isIntersection bld c.x c.y = false := by
  obtain ⟨hm, hx, hy⟩ :=
    Car.move_red_refuses c bld lights others rd choose hnext l hfind hlred
  refine ⟨hm, hx, hy, ?_⟩
  have hmem : l ∈ lights := List.mem_of_find?_eq_some hfind
  have hpred := List.find?_some hfind
  simp only [Bool.and_eq_true, beq_iff_eq] at hpred
  have hplist : initLightPositions =
      [((4 : Int), (9 : Int)), (7, 12), (4, 12), (7, 9),
       (19, 9), (22, 12), (19, 12), (22, 9)] := by decide
  have hcp : Car.checkPos c.direction c.x c.y ∈
      [((4 : Int), (9 : Int)), (7, 12), (4, 12), (7, 9),
       (19, 9), (22, 12), (19, 12), (22, 9)] := by
    rw [← hplist]
    have := hpos l hmem
    rwa [hpred.1, hpred.2, Prod.mk.eta] at this
  exact checkPos_light_entry_outside bld c.direction c.x c.y hcp hnext

/-- **C9, witness.**  A car at `(4, 11)` heading East: its destination
`(5, 11)` is an intersection cell, the light at its check cell `(4, 12)` is
the east-entry light, initialized Red; the move is refused outside the
intersection. -/
theorem C9_witness :
    (Car.move (mkCar 1 4 11 EAST) (fun _ _ => false) initLights [] 2
      (fun l2 => l2.headD EAST)).2 = false ∧
    (Car.move (mkCar 1 4 11 EAST) (fun _ _ => false) initLights [] 2
      (fun l2 => l2.headD EAST)).1.x = (mkCar 1 4 11 EAST).x ∧
    (Car.move (mkCar 1 4 11 EAST) (fun _ _ => false) initLights [] 2
      (fun l2 => l2.headD EAST)).1.y = (mkCar 1 4 11 EAST).y ∧
    isIntersection (fun _ _ => false) (mkCar 1 4 11 EAST).x (mkCar 1 4 11 EAST).y = false :=
  C9_red_light_never_enters_intersection (mkCar 1 4 11 EAST) (fun _ _ => false)
    initLights [] 2 (fun l2 => l2.headD EAST) (by decide) (by decide)
    ⟨4, 12, "HORIZONTAL", RED, 0, 30⟩ (by decide) (by decide)

/-- One processing of a car inside the movement loop adds one to its
cumulative wait counter exactly when it ends the tick waiting. -/
theorem carTick_total (c : Car) (bld : Int → Int → Bool)
    (lights : List TrafficLight) (others : List Car) (rd : Nat)
    (choose : List Dir → Dir) :
    (carTick c bld lights others rd choose).1.total_wait_time =
      c.total_wait_time +
        (if (carTick c bld lights others rd choose).1.waiting = true then 1 else 0) := by
  have hc := (Car.move_counters c bld lights others rd choose).1
  unfold carTick Car.incrementWaitTime
  dsimp only
  cases hw : (c.move bld lights others rd choose).1.waiting <;> simp [hw, hc]

/-- The movement loop appends the processed cars after `done`, and the sum of
their cumulative counters equals the sum before processing plus the number
that finish waiting. -/
theorem movePhase_spec (bld : Int → Int → Bool) (lights : List TrafficLight)
    (rd : Nat) (choose : Nat → List Dir → Dir) :
    ∀ todo done, ∃ processed,
      movePhase bld lights rd choose done todo = done ++ processed ∧
      carsTotalSum processed = carsTotalSum todo + waitingCount processed := by
  intro todo
  induction todo with
  | nil =>
      intro done
      exact ⟨[], by simp [movePhase], by simp [carsTotalSum, waitingCount]⟩
  | cons c rest ih =>
      intro done
      obtain ⟨p, hp, hsum⟩ :=
        ih (done ++ [(carTick c bld lights (done ++ c :: rest) rd (choose done.length)).1])
      refine ⟨(carTick c bld lights (done ++ c :: rest) rd (choose done.length)).1 :: p, ?_, ?_⟩
      · show movePhase bld lights rd choose
          (done ++ [(carTick c bld lights (done ++ c :: rest) rd (choose done.length)).1]) rest = _
        rw [hp]
        simp
      · have htot := carTick_total c bld lights (done ++ c :: rest) rd (choose done.length)
        simp only [carsTotalSum, waitingCount, List.map_cons, List.sum_cons,
          List.countP_cons] at hsum ⊢
        rw [htot]
        cases hw : (carTick c bld lights (done ++ c :: rest) rd (choose done.length)).1.waiting <;>
          simp [hw] at hsum ⊢ <;> omega

theorem carsTotalSum_filter (l : List Car) (p : Car → Bool) :
    carsTotalSum (l.filter p) + carsTotalSum (l.filter (fun c => !(p c))) =
      carsTotalSum l := by
  induction l with
  | nil => rfl
  | cons c rest ih =>
      cases hp : p c <;>
        simp [carsTotalSum, List.filter_cons, hp] at ih ⊢ <;> omega

theorem spawnCar_total (s : SimState) (pick freshId : Nat) :
    getTotalWaitTime (spawnCar s pick freshId) = getTotalWaitTime s := by
  unfold spawnCar
  split
  · rfl
  · cases hget : spawnPoints.get? (pick % spawnPoints.length) with
    | none => rfl
    | some p =>
        obtain ⟨px, py, pd⟩ := p
        dsimp only
        split
        · rfl
        · simp [getTotalWaitTime, mkCar]

/-- The pre-movement phase (tick, lights, spawn) does not change the wait
total: a spawned car starts with a zero counter. -/
theorem preMovePhase_total (s : SimState) (pick freshId : Nat) :
    getTotalWaitTime (preMovePhase s pick freshId) = getTotalWaitTime s := by
  unfold preMovePhase
  dsimp only
  split
  · rw [spawnCar_total]
    rfl
  · rfl

/-- One `step` increases the running wait total (removed-cars total plus the
live cars' counters) by exactly this tick's per-car wait increments: removal
folds each removed car's counter into the running total exactly once. -/
theorem stepSim_total (bld : Int → Int → Bool) (rd : Nat) (pick freshId : Nat)
    (choose : Nat → List Dir → Dir) (s : SimState) :
    getTotalWaitTime (stepSim bld rd pick freshId choose s) =
      getTotalWaitTime s + tickWaitIncrement bld rd pick freshId choose s := by
  unfold stepSim tickWaitIncrement
  obtain ⟨processed, hp, hsum⟩ :=
    movePhase_spec bld (preMovePhase s pick freshId).traffic_lights rd choose
      (preMovePhase s pick freshId).cars []
  rw [← preMovePhase_total s pick freshId]
  unfold getTotalWaitTime
  dsimp only
  rw [hp]
  simp only [List.nil_append]
  have hfil := carsTotalSum_filter processed carInBounds
  have hswap : processed.filter (fun c => !(carInBounds c)) =
      processed.filter (fun c => !(carInBounds c)) := rfl
  simp only [carsTotalSum] at hsum hfil ⊢
  omega

/-- **C8.**  At every tick boundary of a run from the freshly constructed
simulation, `get_total_wait_time` (the running removed-car total plus the sum
over live cars) equals the total wait time re-summed from episode start —
the sum over every elapsed tick of the number of cars that ended that tick
waiting — with no double counting when cars are removed. -/
theorem C8_wait_total_conservation (bld : Int → Int → Bool) (rd : Nat)
    (picks fids : Nat → Nat) (chooses : Nat → Nat → List Dir → Dir) (n : Nat) :
    getTotalWaitTime (runSim bld rd picks fids chooses n) =
      ∑ k ∈ Finset.range n, tickWaitIncrementAt bld rd picks fids chooses k := by
  induction n with
  | zero => rfl
  | succ m ih =>
      rw [Finset.sum_range_succ, ← ih]
      exact stepSim_total bld rd (picks m) (fids m) (chooses m) _

/-- **C8, witness.**  The conservation theorem applied to a concrete
three-tick run. -/
theorem C8_witness :
    getTotalWaitTime (runSim (fun _ _ => false) 2 (fun _ => 0) (fun n => n)
        (fun _ _ l => l.headD EAST) 3) =
      ∑ k ∈ Finset.range 3, tickWaitIncrementAt (fun _ _ => false) 2 (fun _ => 0)
        (fun n => n) (fun _ _ l => l.headD EAST) k :=
  C8_wait_total_conservation (fun _ _ => false) 2 (fun _ => 0) (fun n => n)
    (fun _ _ l => l.headD EAST) 3

/-- **C7.**  The light quadruples built at `Simulation` construction do not
match the map: the map's second 2x2 intersection block (cells `(10,10)` …
`(11,11)`) is covered by no entry of the hard-coded bounds table (id 1 is
placed at x=[20,21] instead), and some constructed lights lie outside the
20x20 grid. -/
theorem C7_lights_mismatch_map :
    ((10, 10) ∈ mapIntersectionCells ∧
      ∀ p ∈ intersectionBoundsTable, p.2 ≠ ((10 : Int), (11 : Int), (10 : Int), (11 : Int))) ∧
    (∃ tl ∈ initLights, inBounds tl.x tl.y = false) := by decide

end TrafficSim
